import Mathlib

/-!
Shallow embedding of the credential-verification module `app/core/auth.py`
of the grok2api repository, together with proofs about its behaviour.

The module decides whether a presented bearer token grants access to one of
three tiers: administrative API access (`verify_api_key`), administrative
console login (`verify_app_key`), and a public tier (`verify_public_key`).
All three are pure functions of the presented credential and a snapshot of
the four configuration values; configuration reads are modelled by passing
the snapshot values as explicit arguments.  Python strings become `String`,
`str.strip()` becomes the list-based `strTrim`, `str.startswith` becomes
`strStartsWith`, a raised `HTTPException` becomes `Except.error` carrying an
`AuthError` record of status code, detail and headers, and SHA-256 (from
`hashlib`) is implemented from scratch over byte lists of naturals.
-/

set_option maxRecDepth 100000

namespace Grok2Api

/-! ### SHA-256 over byte lists (bytes and 32-bit words are `Nat` values) -/

/-- One 32-bit word: 2^32; word values are always kept below this bound. -/
def w32 : Nat := 4294967296

def add32 (a b : Nat) : Nat := (a + b) % w32

def rotr (n x : Nat) : Nat := ((x >>> n) ||| (x <<< (32 - n))) % w32

def shr (n x : Nat) : Nat := x >>> n

/-- Bitwise choice; `4294967295 - x` is the 32-bit complement of `x < 2^32`. -/
def ch (x y z : Nat) : Nat := (x &&& y) ^^^ ((4294967295 - x) &&& z)

def maj (x y z : Nat) : Nat := (x &&& y) ^^^ (x &&& z) ^^^ (y &&& z)

def bigSigma0 (x : Nat) : Nat := rotr 2 x ^^^ rotr 13 x ^^^ rotr 22 x

def bigSigma1 (x : Nat) : Nat := rotr 6 x ^^^ rotr 11 x ^^^ rotr 25 x

def smallSigma0 (x : Nat) : Nat := rotr 7 x ^^^ rotr 18 x ^^^ shr 3 x

def smallSigma1 (x : Nat) : Nat := rotr 17 x ^^^ rotr 19 x ^^^ shr 10 x

/-- The 64 SHA-256 round constants (decimal). -/
def roundK : List Nat :=
  [1116352408, 1899447441, 3049323471, 3921009573, 961987163,
   1508970993, 2453635748, 2870763221, 3624381080, 310598401,
   607225278, 1426881987, 1925078388, 2162078206, 2614888103,
   3248222580, 3835390401, 4022224774, 264347078, 604807628,
   770255983, 1249150122, 1555081692, 1996064986, 2554220882,
   2821834349, 2952996808, 3210313671, 3336571891, 3584528711,
   113926993, 338241895, 666307205, 773529912, 1294757372,
   1396182291, 1695183700, 1986661051, 2177026350, 2456956037,
   2730485921, 2820302411, 3259730800, 3345764771, 3516065817,
   3600352804, 4094571909, 275423344, 430227734, 506948616,
   659060556, 883997877, 958139571, 1322822218, 1537002063,
   1747873779, 1955562222, 2024104815, 2227730452, 2361852424,
   2428436474, 2756734187, 3204031479, 3329325298]

/-- The initial SHA-256 hash state (decimal). -/
def initH : List Nat :=
  [1779033703, 3144134277, 1013904242, 2773480762,
   1359893119, 2600822924, 528734635, 1541459225]

/-- Big-endian byte rendering of a value on `n` bytes, most significant first. -/
def bigEndianBytes : Nat → Nat → List Nat
  | 0, _ => []
  | n + 1, v => bigEndianBytes n (v / 256) ++ [v % 256]

/-- SHA-256 padding: append `0x80`, zeros, and the 64-bit bit length. -/
def padMessage (msg : List Nat) : List Nat :=
  let L := msg.length
  let zeros := (64 - ((L + 9) % 64)) % 64
  msg ++ [128] ++ List.replicate zeros 0 ++ bigEndianBytes 8 (8 * L)

/-- Group a byte list into big-endian 32-bit words. -/
def toWords : List Nat → List Nat
  | b0 :: b1 :: b2 :: b3 :: rest => (((b0 * 256 + b1) * 256 + b2) * 256 + b3) :: toWords rest
  | _ => []

/-- One extension step of the message schedule, on the reversed word list. -/
def scheduleStep (w : List Nat) : List Nat :=
  add32 (add32 (smallSigma1 (w.getD 1 0)) (w.getD 6 0))
        (add32 (smallSigma0 (w.getD 14 0)) (w.getD 15 0)) :: w

def extendW : Nat → List Nat → List Nat
  | 0, w => w
  | n + 1, w => extendW n (scheduleStep w)

/-- The 64-entry message schedule from the 16 words of one block. -/
def messageSchedule (ws : List Nat) : List Nat := (extendW 48 ws.reverse).reverse

/-- One compression round; the state is the eight working variables a..h. -/
def compressStep (st : List Nat) (kw : Nat × Nat) : List Nat :=
  match st with
  | [a, b, c, d, e, f, g, hh] =>
    let t1 := add32 (add32 (add32 hh (bigSigma1 e)) (add32 (ch e f g) kw.1)) kw.2
    let t2 := add32 (bigSigma0 a) (maj a b c)
    [add32 t1 t2, a, b, c, add32 d t1, e, f, g]
  | _ => st

/-- Compress one 64-byte block into the running hash state. -/
def processBlock (h : List Nat) (block : List Nat) : List Nat :=
  let ws := messageSchedule (toWords block)
  let final := (List.zip roundK ws).foldl compressStep h
  List.zipWith add32 h final

/-- Fold the padded message, 64 bytes at a time, into the hash state; the
first argument is recursion fuel, always called with at least the number of
blocks. -/
def sha256Blocks : Nat → List Nat → List Nat → List Nat
  | 0, h, _ => h
  | fuel + 1, h, bytes =>
    if bytes = [] then h
    else sha256Blocks fuel (processBlock h (bytes.take 64)) (bytes.drop 64)

/-- SHA-256 digest (32 bytes) of a byte string. -/
def sha256 (msg : List Nat) : List Nat :=
  let padded := padMessage msg
  ((sha256Blocks padded.length initH padded).map (bigEndianBytes 4)).flatten

def hexDigit (n : Nat) : Char := if n < 10 then Char.ofNat (48 + n) else Char.ofNat (87 + n)

def byteToHex (b : Nat) : List Char := [hexDigit (b / 16), hexDigit (b % 16)]

/-- Lowercase hexadecimal rendering of a byte list, as `hexdigest` does. -/
def bytesToHex (bs : List Nat) : String := String.mk ((bs.map byteToHex).flatten)

/-! ### String primitives mirroring the Python ones -/

/-- The characters removed by Python `str.strip()` (ASCII whitespace). -/
def isSpaceChar (c : Char) : Bool :=
  c = ' ' || c = '\t' || c = '\n' || c = '\r' || c = '\x0b' || c = '\x0c'

/-- Python `s.strip()`: drop leading and trailing whitespace. -/
def strTrim (s : String) : String :=
  String.mk (((s.data.dropWhile isSpaceChar).reverse.dropWhile isSpaceChar).reverse)

/-- Python `s.startswith(pre)`: code-point prefix test. -/
def strStartsWith (s pre : String) : Bool := pre.data.isPrefixOf s.data

/-- UTF-8 encoding of one code point, as `str.encode()` produces. -/
def charUtf8 (c : Char) : List Nat :=
  let n := c.toNat
  if n < 128 then [n]
  else if n < 2048 then [192 + n / 64, 128 + n % 64]
  else if n < 65536 then [224 + n / 4096, 128 + (n / 64) % 64, 128 + n % 64]
  else [240 + n / 262144, 128 + (n / 4096) % 64, 128 + (n / 64) % 64, 128 + n % 64]

/-- UTF-8 bytes of a string, as plain naturals. -/
def utf8Bytes (s : String) : List Nat := (s.data.map charUtf8).flatten

/-- Lowercase-hex SHA-256 of a string, as `hashlib.sha256(s.encode()).hexdigest()`. -/
def sha256HexOfString (s : String) : String := bytesToHex (sha256 (utf8Bytes s))

/-! ### The authentication module `app/core/auth.py` -/

/-- Source `_hash_public_key`: SHA-256 hex of `"grok2api-public:" + key`. -/
def hash_public_key (key : String) : String :=
  sha256HexOfString ("grok2api-public:" ++ key)

/-- Source `_match_public_key`: accept the trimmed key itself or its
`public-` hashed form; an empty or whitespace-only key matches nothing. -/
def match_public_key (credentials publicKey : String) : Bool :=
  if publicKey = "" then false
  else
    let normalized := strTrim publicKey
    if normalized = "" then false
    else if credentials = normalized then true
    else if strStartsWith credentials "public-" then
      if credentials = "public-" ++ hash_public_key normalized then true
      else false
    else false

/-- The payload of a raised `HTTPException`. -/
structure AuthError where
  statusCode : Nat
  detail : String
  headers : List (String × String)
deriving DecidableEq

def missingTokenError : AuthError :=
  ⟨401, "Missing authentication token", [("WWW-Authenticate", "Bearer")]⟩

def invalidTokenError : AuthError :=
  ⟨401, "Invalid authentication token", [("WWW-Authenticate", "Bearer")]⟩

def appKeyNotConfiguredError : AuthError :=
  ⟨401, "App key is not configured", [("WWW-Authenticate", "Bearer")]⟩

def publicDisabledError : AuthError :=
  ⟨401, "Public access is disabled", [("WWW-Authenticate", "Bearer")]⟩

/-- Source `verify_api_key` (admin tier).  The configuration snapshot
(`app.api_key`, `app.public_key`, both already defaulted to `""` by the
accessors) is passed explicitly; `auth` is the extracted bearer token. -/
def verify_api_key (apiKey publicKey : String) (auth : Option String) :
    Except AuthError (Option String) :=
  if apiKey = "" then Except.ok none
  else
    match auth with
    | none => Except.error missingTokenError
    | some credentials =>
      if credentials = apiKey then Except.ok (some credentials)
      else if match_public_key credentials publicKey then Except.ok (some credentials)
      else Except.error invalidTokenError

/-- Source `verify_app_key` (console login tier, `app.app_key`). -/
def verify_app_key (appKey : String) (auth : Option String) :
    Except AuthError String :=
  if appKey = "" then Except.error appKeyNotConfiguredError
  else
    match auth with
    | none => Except.error missingTokenError
    | some credentials =>
      if credentials = appKey then Except.ok credentials
      else Except.error invalidTokenError

/-- Source `verify_public_key` (public tier, `app.public_key` and
`app.public_enabled`). -/
def verify_public_key (publicKey : String) (publicEnabled : Bool)
    (auth : Option String) : Except AuthError (Option String) :=
  if publicKey = "" then
    if publicEnabled then Except.ok none
    else Except.error publicDisabledError
  else
    match auth with
    | none => Except.error missingTokenError
    | some credentials =>
      if match_public_key credentials publicKey then Except.ok (some credentials)
      else Except.error invalidTokenError

/-! ### Helper lemmas -/

theorem isPrefixOf_append_self : ∀ (l t : List Char), l.isPrefixOf (l ++ t) = true
  | [], _ => by simp [List.isPrefixOf]
  | a :: as, t => by
    simp only [List.cons_append, List.isPrefixOf_cons₂_self]
    exact isPrefixOf_append_self as t

theorem strStartsWith_append (p t : String) : strStartsWith (p ++ t) p = true := by
  unfold strStartsWith
  rw [String.data_append]
  exact isPrefixOf_append_self p.data t.data

theorem strTrim_empty : strTrim "" = "" := by decide

theorem ne_empty_of_trim_ne_empty {s : String} (h : strTrim s ≠ "") : s ≠ "" := by
  intro he
  apply h
  subst he
  decide

/-- Characterization of the matcher: it accepts exactly the trimmed key and
its `public-` hashed form, and only when the trimmed key is non-empty. -/
theorem match_public_key_eq_true_iff (c pk : String) :
    match_public_key c pk = true ↔
      strTrim pk ≠ "" ∧
        (c = strTrim pk ∨ c = "public-" ++ hash_public_key (strTrim pk)) := by
  unfold match_public_key
  by_cases h0 : pk = ""
  · subst h0
    simp [strTrim_empty]
  · by_cases h1 : strTrim pk = ""
    · simp [h0, h1]
    · by_cases h2 : c = strTrim pk
      · simp [h0, h1, h2]
      · by_cases h3 : c = "public-" ++ hash_public_key (strTrim pk)
        · have hs : strStartsWith c "public-" = true := by
            rw [h3]
            exact strStartsWith_append "public-" (hash_public_key (strTrim pk))
          simp [h0, h1, h2, h3, hs]
          exact Or.inr (strStartsWith_append "public-" (hash_public_key (strTrim pk)))
        · by_cases hs : strStartsWith c "public-" = true
          · simp [h0, h1, h2, h3, hs]
          · simp [h0, h1, h2, h3, hs]

theorem match_public_key_of_trim_empty {pk : String} (c : String)
    (h : strTrim pk = "") : match_public_key c pk = false := by
  unfold match_public_key
  by_cases h0 : pk = ""
  · simp [h0]
  · simp [h0, h]

theorem match_public_key_empty_credentials (pk : String) :
    match_public_key "" pk = false := by
  unfold match_public_key
  by_cases h0 : pk = ""
  · simp [h0]
  · by_cases h1 : strTrim pk = ""
    · simp [h0, h1]
    · have hne : ("" : String) ≠ strTrim pk := fun he => h1 he.symm
      have hs : strStartsWith "" "public-" = false := by decide
      simp [h0, h1, hne, hs]

/-! ### Claim theorems -/

/-- C1: the CredentialMatcher accepts a presented string `x` against a secret
`s` if and only if the trimmed `s` is non-empty and `x` is either exactly the
trimmed `s` or the string `public-` followed by the lowercase-hex SHA-256 of
the bytes of `grok2api-public:` concatenated with the trimmed `s`; in
particular nothing matches a secret whose trimmed form is empty. -/
theorem matcher_contract (x s : String) :
    match_public_key x s = true ↔
      strTrim s ≠ "" ∧
        (x = strTrim s ∨ x = "public-" ++ hash_public_key (strTrim s)) :=
  match_public_key_eq_true_iff x s

/-- C4: with a configured AdminKey, a present token that differs from the
AdminKey but is accepted by the matcher against the PublicKey makes the admin
verifier succeed, returning the token (intentional tier overlap). -/
theorem admin_overlap_public_key (adminKey pk c : String)
    (hA : strTrim adminKey ≠ "") (hne : c ≠ adminKey)
    (hm : match_public_key c pk = true) :
    verify_api_key adminKey pk (some c) = Except.ok (some c) := by
  have hA0 : adminKey ≠ "" := ne_empty_of_trim_ne_empty hA
  unfold verify_api_key
  simp [hA0, hne, hm]

/-- C4 witness: AdminKey `A`, PublicKey `P`, presented `P` succeeds. -/
theorem admin_overlap_public_key_witness :
    verify_api_key "A" "P" (some "P") = Except.ok (some "P") :=
  admin_overlap_public_key "A" "P" "P" (by decide) (by decide) (by decide)

/-- C5: with an empty (unset) AdminKey, the admin verifier succeeds with no
identity for every presented value, including an absent one, whatever the
PublicKey is (the enabled flag is not even an input of this verifier). -/
theorem admin_unset_open (pk : String) (auth : Option String) :
    verify_api_key "" pk auth = Except.ok none := by
  unfold verify_api_key
  simp

/-- C7: when the PublicKey is configured (non-empty after trimming), the
public verifier's result does not depend on the enabled flag. -/
theorem public_flag_noninterference (pk : String) (auth : Option String)
    (h : strTrim pk ≠ "") :
    verify_public_key pk true auth = verify_public_key pk false auth := by
  have h0 : pk ≠ "" := ne_empty_of_trim_ne_empty h
  unfold verify_public_key
  simp [h0]

/-- C7 witness: at PublicKey `secret1` the two flag values agree. -/
theorem public_flag_noninterference_witness :
    verify_public_key "secret1" true none = verify_public_key "secret1" false none :=
  public_flag_noninterference "secret1" none (by decide)

/-- C2 counterexample: an AdminKey consisting of one space has an empty
trimmed form, yet the admin verifier is not open — an absent credential is
rejected with the missing-token error instead of succeeding with no
identity.  The verifiers test raw emptiness, without trimming. -/
theorem whitespace_admin_key_not_open :
    strTrim " " = "" ∧
      verify_api_key " " "" none = Except.error missingTokenError ∧
      verify_api_key " " "" none ≠ Except.ok none := by
  refine ⟨by decide, rfl, ?_⟩
  intro h
  exact Except.noConfusion h

/-- C2 amended: the unset check in every verifier compares the raw secret
with the empty string.  An empty AdminKey opens the admin tier and an empty
PublicKey makes the public tier follow the flag; but a whitespace-only
(non-empty) AdminKey demands a credential, and a whitespace-only PublicKey
demands a credential and then rejects every one of them, because the matcher
trims the key and refuses the empty result. -/
theorem unset_secret_raw_empty :
    (∀ pk auth, verify_api_key "" pk auth = Except.ok none) ∧
    (∀ auth, verify_public_key "" true auth = Except.ok none) ∧
    (∀ auth, verify_public_key "" false auth = Except.error publicDisabledError) ∧
    (∀ w pk, w ≠ "" → strTrim w = "" →
      verify_api_key w pk none = Except.error missingTokenError) ∧
    (∀ w flag c, w ≠ "" → strTrim w = "" →
      verify_public_key w flag (some c) = Except.error invalidTokenError) := by
  refine ⟨?_, ?_, ?_, ?_, ?_⟩
  · intro pk auth
    unfold verify_api_key
    simp
  · intro auth
    unfold verify_public_key
    simp
  · intro auth
    unfold verify_public_key
    simp
  · intro w pk hw _
    unfold verify_api_key
    simp [hw]
  · intro w flag c hw htrim
    have hm : match_public_key c w = false := match_public_key_of_trim_empty c htrim
    unfold verify_public_key
    simp [hw, hm]

/-- C2 amended witness: concrete instances of the five conjuncts at the
empty and the one-space secret. -/
theorem unset_secret_raw_empty_witness :
    verify_api_key "" "P" (some "x") = Except.ok none ∧
    verify_api_key " " "" none = Except.error missingTokenError ∧
    verify_public_key " " true (some " ") = Except.error invalidTokenError :=
  ⟨unset_secret_raw_empty.1 "P" (some "x"),
   unset_secret_raw_empty.2.2.2.1 " " "" (by decide) (by decide),
   unset_secret_raw_empty.2.2.2.2 " " true " " (by decide) (by decide)⟩

/-- C3 counterexample: a PublicKey consisting of one space has an empty
trimmed form, and the flag is true, yet the public verifier is not open: an
absent credential is rejected with the missing-token error. -/
theorem whitespace_public_key_not_open :
    strTrim " " = "" ∧
      verify_public_key " " true none = Except.error missingTokenError ∧
      verify_public_key " " true none ≠ Except.ok none := by
  refine ⟨by decide, rfl, ?_⟩
  intro h
  exact Except.noConfusion h

/-- C3 amended: full case analysis of the public verifier with "unconfigured"
meaning the raw key is the empty string (the code does not trim here): empty
key and flag true is open; empty key and flag false is the disabled error;
non-empty key demands a credential — absent is the missing-token error, a
matcher-accepted one is returned unchanged, any other is the invalid-token
error. -/
theorem verify_public_cases (pk : String) (flag : Bool) (auth : Option String) :
    (pk = "" → flag = true → verify_public_key pk flag auth = Except.ok none) ∧
    (pk = "" → flag = false →
      verify_public_key pk flag auth = Except.error publicDisabledError) ∧
    (pk ≠ "" → auth = none →
      verify_public_key pk flag auth = Except.error missingTokenError) ∧
    (∀ c, pk ≠ "" → auth = some c → match_public_key c pk = true →
      verify_public_key pk flag auth = Except.ok (some c)) ∧
    (∀ c, pk ≠ "" → auth = some c → match_public_key c pk = false →
      verify_public_key pk flag auth = Except.error invalidTokenError) := by
  refine ⟨?_, ?_, ?_, ?_, ?_⟩
  · intro h0 hf
    subst h0; subst hf
    unfold verify_public_key
    simp
  · intro h0 hf
    subst h0; subst hf
    unfold verify_public_key
    simp
  · intro h0 ha
    subst ha
    unfold verify_public_key
    simp [h0]
  · intro c h0 ha hm
    subst ha
    unfold verify_public_key
    simp [h0, hm]
  · intro c h0 ha hm
    subst ha
    unfold verify_public_key
    simp [h0, hm]

/-- C3 amended witness: the accepted case at PublicKey `secret1` with the
exact key presented, and the disabled case with the empty key. -/
theorem verify_public_cases_witness :
    verify_public_key "secret1" true (some "secret1") = Except.ok (some "secret1") ∧
    verify_public_key "" false (some "x") = Except.error publicDisabledError :=
  ⟨(verify_public_cases "secret1" true (some "secret1")).2.2.2.1 "secret1"
      (by decide) rfl (by decide),
   (verify_public_cases "" false (some "x")).2.1 rfl rfl⟩

/-- C6 counterexample: a LoginKey consisting of one space has an empty
trimmed form, so the claim demands the not-configured failure whatever is
presented; the code instead treats it as configured and accepts the exact
one-space token. -/
theorem whitespace_login_key_accepted :
    strTrim " " = "" ∧ verify_app_key " " (some " ") = Except.ok " " := by
  exact ⟨by decide, rfl⟩

/-- C6 amended: the login verifier contract with "unconfigured" meaning the
raw key is the empty string (the code does not trim here): empty key is the
not-configured failure regardless of the presented value; otherwise an
absent credential is the missing-token failure, any present value other than
the exact LoginKey (in particular its derived `public-` hashed form, which
differs from it) is the invalid-token failure, and the exact LoginKey is
returned. -/
theorem verify_login_contract (appKey : String) (auth : Option String) :
    (appKey = "" → verify_app_key appKey auth = Except.error appKeyNotConfiguredError) ∧
    (appKey ≠ "" → auth = none →
      verify_app_key appKey auth = Except.error missingTokenError) ∧
    (∀ p, appKey ≠ "" → auth = some p → p ≠ appKey →
      verify_app_key appKey auth = Except.error invalidTokenError) ∧
    (appKey ≠ "" → auth = some appKey → verify_app_key appKey auth = Except.ok appKey) := by
  refine ⟨?_, ?_, ?_, ?_⟩
  · intro h0
    subst h0
    unfold verify_app_key
    simp
  · intro h0 ha
    subst ha
    unfold verify_app_key
    simp [h0]
  · intro p h0 ha hp
    subst ha
    unfold verify_app_key
    simp [h0, hp]
  · intro h0 ha
    subst ha
    unfold verify_app_key
    simp [h0]

/-- C6 amended witness: LoginKey `L` rejects its own derived hashed form
with the invalid-token error, accepts the exact `L`, and the empty LoginKey
is the not-configured failure. -/
theorem verify_login_contract_witness :
    verify_app_key "L" (some ("public-" ++ hash_public_key "L")) =
      Except.error invalidTokenError ∧
    verify_app_key "L" (some "L") = Except.ok "L" ∧
    verify_app_key "" (some "L") = Except.error appKeyNotConfiguredError :=
  ⟨(verify_login_contract "L" (some ("public-" ++ hash_public_key "L"))).2.2.1
      ("public-" ++ hash_public_key "L") (by decide) rfl (by decide),
   (verify_login_contract "L" (some "L")).2.2.2 (by decide) rfl,
   (verify_login_contract "" (some "L")).1 rfl⟩

/-- The failure shape every raised error must have: status 401, one of the
four fixed detail messages, and the bearer challenge header. -/
def errorShapeOk (e : AuthError) : Prop :=
  e.statusCode = 401 ∧
    (e.detail = "Missing authentication token" ∨
     e.detail = "Invalid authentication token" ∨
     e.detail = "App key is not configured" ∨
     e.detail = "Public access is disabled") ∧
    e.headers = [("WWW-Authenticate", "Bearer")]

/-- A verifier result is acceptable if every failure has the fixed shape. -/
def resultShapeOk {α : Type} : Except AuthError α → Prop
  | Except.error e => errorShapeOk e
  | Except.ok _ => True

/-- C8: every failure of any of the three verifiers carries HTTP status 401,
one of the four fixed detail messages, and the `WWW-Authenticate: Bearer`
header; no other failure shape ever occurs. -/
theorem failure_shape_uniform (apiKey publicKey appKey : String) (flag : Bool)
    (auth : Option String) :
    resultShapeOk (verify_api_key apiKey publicKey auth) ∧
    resultShapeOk (verify_app_key appKey auth) ∧
    resultShapeOk (verify_public_key publicKey flag auth) := by
  refine ⟨?_, ?_, ?_⟩
  · unfold verify_api_key
    split
    · trivial
    · cases auth with
      | none => exact ⟨rfl, Or.inl rfl, rfl⟩
      | some c =>
        by_cases h1 : c = apiKey
        · simp [h1, resultShapeOk]
        · by_cases h2 : match_public_key c publicKey = true
          · simp [h1, h2, resultShapeOk]
          · simp [h1, h2, resultShapeOk, errorShapeOk, invalidTokenError]
  · unfold verify_app_key
    split
    · exact ⟨rfl, Or.inr (Or.inr (Or.inl rfl)), rfl⟩
    · cases auth with
      | none => exact ⟨rfl, Or.inl rfl, rfl⟩
      | some c =>
        by_cases h1 : c = appKey
        · simp [h1, resultShapeOk]
        · simp [h1, resultShapeOk, errorShapeOk, invalidTokenError]
  · unfold verify_public_key
    split
    · split
      · trivial
      · exact ⟨rfl, Or.inr (Or.inr (Or.inr rfl)), rfl⟩
    · cases auth with
      | none => exact ⟨rfl, Or.inl rfl, rfl⟩
      | some c =>
        by_cases h1 : match_public_key c publicKey = true
        · simp [h1, resultShapeOk]
        · simp [h1, resultShapeOk, errorShapeOk, invalidTokenError]

/-- C9: with a configured AdminKey and an unconfigured (empty) PublicKey, the
`public-` hashed form derived from the AdminKey itself is rejected with the
invalid-token error (the hashed form, which differs from the raw key, only
ever applies to the PublicKey), and the only accepted token is the exact
AdminKey. -/
theorem admin_hashed_self_rejected (a : String) (h : strTrim a ≠ "")
    (hne : "public-" ++ hash_public_key a ≠ a) :
    verify_api_key a "" (some ("public-" ++ hash_public_key a)) =
      Except.error invalidTokenError ∧
    (∀ p, verify_api_key a "" (some p) = Except.ok (some p) ↔ p = a) := by
  have h0 : a ≠ "" := ne_empty_of_trim_ne_empty h
  have hmall : ∀ p, match_public_key p "" = false := by
    intro p
    unfold match_public_key
    simp
  constructor
  · unfold verify_api_key
    simp [h0, hne, hmall]
  · intro p
    constructor
    · intro hp
      by_cases hpa : p = a
      · exact hpa
      · exfalso
        unfold verify_api_key at hp
        simp [h0, hpa, hmall] at hp
    · intro hp
      subst hp
      unfold verify_api_key
      simp [h0]

/-- C9 witness: AdminKey `A`, empty PublicKey — the concrete hashed form of
`A` is rejected while the exact `A` is accepted. -/
theorem admin_hashed_self_rejected_witness :
    verify_api_key "A" "" (some ("public-" ++ hash_public_key "A")) =
      Except.error invalidTokenError ∧
    verify_api_key "A" "" (some "A") = Except.ok (some "A") :=
  ⟨(admin_hashed_self_rejected "A" (by decide) (by decide)).1,
   ((admin_hashed_self_rejected "A" (by decide) (by decide)).2 "A").mpr rfl⟩

/-- C10: a present empty-string token counts as present, not absent — with
the relevant secret configured (non-empty after trimming, hence non-empty),
each verifier rejects it with the invalid-token error, never the
missing-token error. -/
theorem empty_token_is_present (a pk2 l pk : String) (flag : Bool)
    (ha : strTrim a ≠ "") (hl : strTrim l ≠ "") (hp : strTrim pk ≠ "") :
    verify_api_key a pk2 (some "") = Except.error invalidTokenError ∧
    verify_app_key l (some "") = Except.error invalidTokenError ∧
    verify_public_key pk flag (some "") = Except.error invalidTokenError := by
  have ha0 : a ≠ "" := ne_empty_of_trim_ne_empty ha
  have hl0 : l ≠ "" := ne_empty_of_trim_ne_empty hl
  have hp0 : pk ≠ "" := ne_empty_of_trim_ne_empty hp
  have hnea : ("" : String) ≠ a := fun he => ha0 he.symm
  have hnel : ("" : String) ≠ l := fun he => hl0 he.symm
  refine ⟨?_, ?_, ?_⟩
  · unfold verify_api_key
    simp [ha0, hnea, match_public_key_empty_credentials]
  · unfold verify_app_key
    simp [hl0, hnel]
  · unfold verify_public_key
    simp [hp0, match_public_key_empty_credentials]

/-- C10 witness: AdminKey `A`, LoginKey `L`, PublicKey `P` all reject the
present empty token with the invalid-token error. -/
theorem empty_token_is_present_witness :
    verify_api_key "A" "x" (some "") = Except.error invalidTokenError ∧
    verify_app_key "L" (some "") = Except.error invalidTokenError ∧
    verify_public_key "P" true (some "") = Except.error invalidTokenError :=
  empty_token_is_present "A" "x" "L" "P" true (by decide) (by decide) (by decide)

end Grok2Api
